import Mathlib

/-!
Verification of `port/platform/common/automation/u_monitor.py` (ubxlib test
monitor).  The Python module watches the text output of a device under test,
classifies each line against a table of regular expressions (`INTERESTING`),
updates a shared `results` dictionary through per-pattern callbacks, and
returns a terminal code from `watch_items`.

The embedding below translates the relevant functions one by one:
* the `results` dictionary becomes the structure `Results`;
* each regular expression of the `INTERESTING` table becomes an executable
  matcher returning the captured groups (`Option (List String)`), written to
  follow Python `re.match` backtracking semantics for that concrete pattern;
* each callback becomes a state transformer on `Results`; wall-clock reads
  (`time()`) become an explicit rational `now` argument, and printer/reporter
  side effects (pure logging) are dropped as they never touch `results`;
* the dispatch loop of `watch_items` (lines 331-334) becomes `process_line`;
* the serial/RTT branch of `pwar_readline` becomes `pwar_readline_serial`
  over an explicit stream of `read(1)` results;
* the exit bookkeeping of `watch_items` (lines 339-355) becomes `watch_exit`,
  and the report block of `main` (lines 386-398) becomes `write_report`.
-/

/-- The `results` dictionary created in `main` (u_monitor.py lines 363-367).
`outcomes` entries are the `[name, duration, status]` lists appended by
`record_outcome`. -/
structure Results where
  finished : Bool
  reboots : Nat
  items_run : Nat
  items_failed : Nat
  items_ignored : Nat
  overall_start_time : Rat
  last_start_time : Rat
  outcomes : List (String × Int × String)
deriving DecidableEq, Repr

/-- The dictionary literal of u_monitor.py lines 363-367; `main` then stamps
`last_start_time`/`overall_start_time` with `time()`, which we take as time 0
for a session starting at the clock origin. -/
def initial_results : Results :=
  { finished := false, reboots := 0, items_run := 0, items_failed := 0,
    items_ignored := 0, overall_start_time := 0, last_start_time := 0,
    outcomes := [] }

/-- Python `math.ceil` on a rational, as used in `int(ceil(...))` by the
pass/fail callbacks (`math.ceil` already yields an integer in Python 3, so
the outer `int()` is the identity). -/
def mathCeil (q : Rat) : Int := Rat.ceil q

/-- Python `int()` applied to a capture that the regex guarantees to be a
nonempty string of ASCII digits (groups of the run-finished pattern). -/
def pyInt (s : String) : Nat :=
  s.toList.foldl (fun n c => 10 * n + (c.toNat - '0'.toNat)) 0

/-- Handler for reboots (`reboot_callback`, u_monitor.py lines 35-49): only
`results["reboots"] += 1` touches the state here; the 2-second
`threading.Timer` that later sets `finished` is concurrency outside this
per-line state transformer.  The printer/reporter calls do not touch
`results`. -/
def reboot_callback (_m : List String) (_now : Rat) (r : Results) : Results :=
  { r with reboots := r.reboots + 1 }

/-- Handler for an item beginning to run (`run_callback`, lines 51-59):
`results["last_start_time"] = time()` and `results["items_run"] += 1`. -/
def run_callback (_m : List String) (now : Rat) (r : Results) : Results :=
  { r with last_start_time := now, items_run := r.items_run + 1 }

/-- `record_outcome` (lines 61-64): append `[name, duration, status]`. -/
def record_outcome (r : Results) (name : String) (duration : Int)
    (status : String) : Results :=
  { r with outcomes := r.outcomes ++ [(name, duration, status)] }

/-- Handler for an item passing (`pass_callback`, lines 66-80): records
`(group 1, int(ceil(end_time - last_start_time)), "PASS")`. -/
def pass_callback (m : List String) (now : Rat) (r : Results) : Results :=
  record_outcome r (m.getD 0 "") (mathCeil (now - r.last_start_time)) "PASS"

/-- Handler for a test failing (`fail_callback`, lines 82-96):
`items_failed += 1` then records a `"FAIL"` outcome the same way. -/
def fail_callback (m : List String) (now : Rat) (r : Results) : Results :=
  record_outcome { r with items_failed := r.items_failed + 1 }
    (m.getD 0 "") (mathCeil (now - r.last_start_time)) "FAIL"

/-- Handler for a run finishing (`finish_callback`, lines 98-121): overwrites
`items_run`, `items_failed`, `items_ignored` with `int(match.group(1..3))`
and sets `finished = True`.  The elapsed H:MM:SS computation feeds only the
printer/reporter strings and is dropped. -/
def finish_callback (m : List String) (_now : Rat) (r : Results) : Results :=
  { r with
    items_run := pyInt (m.getD 0 ""),
    items_failed := pyInt (m.getD 1 ""),
    items_ignored := pyInt (m.getD 2 ""),
    finished := true }

/-! Matchers for the eight regexes of the `INTERESTING` table (lines 127-141).
Python dispatches with `re.match`, i.e. anchored at the start of the line but
not required to reach its end.  Lines handed to the classifier have had their
terminator stripped, so `$` below means end of string. -/

/-- Tails of `cs` following each occurrence of `pat`, in increasing position
order.  Used to enumerate the backtracking choice points of a `.*pat` or
`.*?pat` regex prefix. -/
def tailsAfter (pat : List Char) : List Char → List (List Char)
  | [] => []
  | c :: rest =>
    (if pat.isPrefixOf (c :: rest) then [(c :: rest).drop pat.length] else [])
      ++ tailsAfter pat rest

/-- Consume the literal `pat` from the front of `cs`, if present. -/
def dropLit (pat : List Char) (cs : List Char) : Option (List Char) :=
  if pat.isPrefixOf cs then some (cs.drop pat.length) else none

/-- Shortest split of `cs` before an occurrence of `pat`: returns the part of
`cs` strictly before the first occurrence of `pat` (the lazy group `(.*?)`
followed by the literal `pat`). -/
def splitBeforeFirst (pat : List Char) : List Char → Option (List Char)
  | [] => if pat.isPrefixOf ([] : List Char) then some [] else none
  | c :: rest =>
    if pat.isPrefixOf (c :: rest) then some []
    else (splitBeforeFirst pat rest).map (fun g => c :: g)

/-- Regex 1, `r"abort()"` (line 127): `re.match` requires the literal `abort`
at the start of the line; `()` is an empty capture group, unused by the
handler. -/
def re_match_abort (line : String) : Option (List String) :=
  if "abort".toList.isPrefixOf line.toList then some [""] else none

/-- Regex 2, `r"Guru Meditation Error"` (line 129): literal prefix. -/
def re_match_guru (line : String) : Option (List String) :=
  if "Guru Meditation Error".toList.isPrefixOf line.toList then some [] else none

/-- Regex 3, `r"<error> hardfault"` (line 131): literal prefix. -/
def re_match_hardfault (line : String) : Option (List String) :=
  if "<error> hardfault".toList.isPrefixOf line.toList then some [] else none

/-- Regex 4, `r">>> ZEPHYR FATAL ERROR"` (line 133): literal prefix. -/
def re_match_zephyr (line : String) : Option (List String) :=
  if ">>> ZEPHYR FATAL ERROR".toList.isPrefixOf line.toList then some [] else none

/-- Continuation of regex 5 after the literal `Running`:
`r" +([^\.]+(?=\.))...$"`.  Greedy ` +` takes the whole space run `sp`; the
group `[^\.]+` then extends to the first `.` of the remainder (index `d`,
counted from the start of `t`); the lookahead pins that `.`; `...` consumes
three arbitrary characters, so the match needs exactly `d + 3` characters in
`t`; backtracking over the space count yields the longest group start
compatible with a nonempty group, i.e. `k = min sp (d - 1)` spaces consumed. -/
def runTail (t : List Char) : Option (List Char) :=
  let sp := (t.takeWhile (· = ' ')).length
  if sp = 0 then none
  else
    match (t.drop 1).findIdx? (· = '.') with
    | none => none
    | some d1 =>
      let d := d1 + 1
      if t.length = d + 3 ∧ 2 ≤ d then
        let k := min sp (d - 1)
        some ((t.drop k).take (d - k))
      else none

/-- Regex 5, `r"(?:^.*Running) +([^\.]+(?=\.))...$"` (line 135): the greedy
`.*` makes `re.match` prefer the rightmost occurrence of `Running` whose tail
matches; the capture is the item name, e.g. `getSetMnoProfile` in
`"BLAH: Running getSetMnoProfile..."`. -/
def re_match_run (line : String) : Option (List String) :=
  ((tailsAfter "Running".toList line.toList).reverse.findSome? runTail).map
    (fun g => [String.mk g])

/-- Continuation of regexes 6 and 7 after `.c:`: `[0-9]*:` consumes the
maximal digit run, which must be followed by `:` (characters inside the run
are digits, so no shorter run can be followed by `:`). -/
def lineNumTail (t : List Char) : Option (List Char) :=
  let ds := (t.takeWhile Char.isDigit).length
  match t.drop ds with
  | ':' :: t2 => some t2
  | _ => none

/-- Tail of regex 6: `(.*?):PASS$` — the end anchor forces the group to be
everything up to the final 5 characters, which must be `:PASS`. -/
def passTail (t : List Char) : Option (List Char) :=
  match lineNumTail t with
  | none => none
  | some t2 =>
    if 5 ≤ t2.length ∧ t2.drop (t2.length - 5) = ":PASS".toList then
      some (t2.take (t2.length - 5))
    else none

/-- Regex 6, `r"(?:^.*?(?:\.c:))(?:[0-9]*:)(.*?):PASS$"` (line 137): the lazy
`.*?` tries occurrences of `.c:` left to right; captures the item name, e.g.
`connectedThings` in `"C:/temp/file.c:890:connectedThings:PASS"`. -/
def re_match_pass (line : String) : Option (List String) :=
  ((tailsAfter ".c:".toList line.toList).findSome? passTail).map
    (fun g => [String.mk g])

/-- Tail of regex 7: `(.*?):FAIL:` — lazy group up to the first `:FAIL:`;
anything may follow (no end anchor). -/
def failTail (t : List Char) : Option (List Char) :=
  match lineNumTail t with
  | none => none
  | some t2 => splitBeforeFirst ":FAIL:".toList t2

/-- Regex 7, `r"(?:^.*?(?:\.c:))(?:[0-9]*:)(.*?):FAIL:"` (line 139). -/
def re_match_fail (line : String) : Option (List String) :=
  ((tailsAfter ".c:".toList line.toList).findSome? failTail).map
    (fun g => [String.mk g])

/-- Regex 8,
`r"(^[0-9]+) Test(?:s*) ([0-9]+) Failure(?:s*) ([0-9]+) Ignored"` (line 141):
three captured digit runs, with `Test`/`Failure` allowed an optional plural
`s*` (greedy `s` run, then a mandatory space). -/
def re_match_finish (line : String) : Option (List String) :=
  let cs := line.toList
  let g1 := cs.takeWhile Char.isDigit
  if g1 = [] then none else
  match dropLit " Test".toList (cs.drop g1.length) with
  | none => none
  | some t1 =>
    match dropLit [' '] (t1.dropWhile (· = 's')) with
    | none => none
    | some t2 =>
      let g2 := t2.takeWhile Char.isDigit
      if g2 = [] then none else
      match dropLit " Failure".toList (t2.drop g2.length) with
      | none => none
      | some t3 =>
        match dropLit [' '] (t3.dropWhile (· = 's')) with
        | none => none
        | some t4 =>
          let g3 := t4.takeWhile Char.isDigit
          if g3 = [] then none else
          if " Ignored".toList.isPrefixOf (t4.drop g3.length) then
            some [String.mk g1, String.mk g2, String.mk g3]
          else none

/-- One row of the `INTERESTING` table: a matcher and its callback. -/
abbrev RecognizerEntry :=
  (String → Option (List String)) × (List String → Rat → Results → Results)

/-- The `INTERESTING` table (lines 127-141), in source order. -/
def INTERESTING : List RecognizerEntry :=
  [(re_match_abort, reboot_callback),
   (re_match_guru, reboot_callback),
   (re_match_hardfault, reboot_callback),
   (re_match_zephyr, reboot_callback),
   (re_match_run, run_callback),
   (re_match_pass, pass_callback),
   (re_match_fail, fail_callback),
   (re_match_finish, finish_callback)]

/-- One iteration of the dispatch loop body (lines 332-334): try the entry's
regex on the line and, if it matches, run its callback. -/
def apply_entry (line : String) (now : Rat) (r : Results)
    (entry : RecognizerEntry) : Results :=
  match entry.1 line with
  | some m => entry.2 m now r
  | none => r

/-- The dispatch loop of `watch_items` (lines 331-334):
`for entry in INTERESTING: match = re.match(entry[0], line); if match:
entry[1](match, ...)`.  Note the loop body has no `break`: every entry is
tried against the line, in table order, even after a match. -/
def process_line (r : Results) (line : String) (now : Rat) : Results :=
  INTERESTING.foldl (apply_entry line now) r

/-- The entries of `INTERESTING` whose regex matches `line`, in table
order. -/
def matching_entries (line : String) : List RecognizerEntry :=
  INTERESTING.filter (fun e => (e.1 line).isSome)

/-- The line-classification part of the `WATCHING` loop (lines 321-338),
specialised to a session where no timer expires and no cancellation occurs:
each queued line (paired with the `time()` at which it is dequeued) is
dispatched in arrival order, and the loop stops once `results["finished"]`
is observed true at the top of an iteration. -/
def watch_lines (r : Results) : List (String × Rat) → Results
  | [] => r
  | (line, now) :: rest =>
    if r.finished then r else watch_lines (process_line r line now) rest

/-- The `while` condition of the watching loop (lines 321-326):
`u_utils.keep_going(...) and not results["finished"] and (not guard or
time() - start < guard) and (not inactivity or time() - last_activity <
inactivity)`.  `guard = 0`/`inact = 0` model Python falsy (absent) timer
budgets; `t` is the `time()` value at the check. -/
def loop_continues (keep_going finished : Bool) (guard inact : Nat)
    (start last_act t : Rat) : Bool :=
  keep_going && !finished
    && (decide (guard = 0) || decide (t - start < (guard : Rat)))
    && (decide (inact = 0) || decide (t - last_act < (inact : Rat)))

/-- What `watch_items` does after the watching loop (lines 339-355). -/
structure WatchOutcome where
  return_value : Int
  finished_forced : Bool
  joined : Bool
deriving DecidableEq, Repr

/-- Exit bookkeeping of `watch_items` (lines 320-355).  In the normal case
(no exception escaped the `try` block) the code sets
`results["finished"] = True`, joins the read thread, and then either keeps
the initial `return_value = -1` (a timer expired, judged at the post-join
`time()` value `t`) or returns `items_failed + reboots`.  If a
`serial.SerialException` or `EOFError` escapes the block mid-loop, the
`except` clause only prints: `finished` is not forced, the thread is not
joined, and the initial `-1` is returned. -/
def watch_exit (r : Results) (guard inact : Nat) (start last_act t : Rat)
    (exception : Bool) : WatchOutcome :=
  if exception then
    { return_value := -1, finished_forced := false, joined := false }
  else
    { return_value :=
        if guard ≠ 0 ∧ (guard : Rat) ≤ t - start then -1
        else if inact ≠ 0 ∧ (inact : Rat) ≤ t - last_act then -1
        else (r.items_failed : Int) + (r.reboots : Int),
      finished_forced := true, joined := true }

/-- Python whitespace for `str.strip()` with no argument. -/
def isPySpace (c : Char) : Bool :=
  c = ' ' || c = '\t' || c = '\n' || c = '\r' || c = '\x0b' || c = '\x0c'

/-- Python `str.strip()`: drop whitespace from both ends. -/
def pyStrip (cs : List Char) : List Char :=
  ((cs.dropWhile isPySpace).reverse.dropWhile isPySpace).reverse

/-- The `CONNECTION_SERIAL`/`CONNECTION_RTT` branch of `pwar_readline`
(lines 187-207).  `stream` models the successive results of
`in_handle.read(1)`: `some c` is a byte, `none` is "no data currently
available".  The local accumulator `line` starts empty at every call; when a
read yields no data the Python code sets `line = None` and falls out of the
loop with `eol` false, returning `None` — the characters accumulated so far
in the local `line` are lost.  On the terminator the accumulated line is
returned `strip()`ped.  The function also returns the unconsumed remainder
of the stream, which is what the next call will see. -/
def pwar_readline_serial (term : Char) :
    List (Option Char) → List Char → Option (List Char) × List (Option Char)
  | [], _line => (none, [])
  | some c :: rest, line =>
    if c = term then (some (pyStrip line), rest)
    else pwar_readline_serial term rest (line ++ [c])
  | none :: rest, _line => (none, rest)

/-- One `<testcase>` element of the report written by `main`
(lines 393-397). -/
structure TestCase where
  classname : String
  name : String
  time : Int
  status : String
deriving DecidableEq, Repr

/-- The `<testsuite>` report document written by `main` (lines 389-398). -/
structure TestReport where
  tests : Nat
  failures : Nat
  cases : List TestCase
deriving DecidableEq, Repr

/-- The report block of `main` (lines 386-398):
`if test_report_handle and instance:` write one `<testsuite>` envelope
carrying `items_run`/`items_failed` and one `<testcase>` per entry of
`results["outcomes"]`, in list order, with the constant classname
`"ubxlib_tests"`.  `handle_supplied`/`instance_supplied` model the Python
truthiness of the two guards (the standalone `__main__` path always passes
`instance = None`, hence `instance_supplied = false`). -/
def write_report (handle_supplied instance_supplied : Bool) (r : Results) :
    Option TestReport :=
  if handle_supplied && instance_supplied then
    some { tests := r.items_run, failures := r.items_failed,
           cases := r.outcomes.map
             (fun o => { classname := "ubxlib_tests", name := o.1,
                         time := o.2.1, status := o.2.2 }) }
  else none

/-! Theorems. -/

/-- Fold of the guarded dispatch over a recognizer list equals the fold of
the bare callbacks over the sublist of matching entries, in the same order. -/
theorem foldl_apply_entry_filter (line : String) (now : Rat) :
    ∀ (l : List RecognizerEntry) (r : Results),
      l.foldl (apply_entry line now) r =
        (l.filter (fun e => (e.1 line).isSome)).foldl
          (fun s e => e.2 ((e.1 line).getD []) now s) r := by
  intro l
  induction l with
  | nil => intro r; rfl
  | cons e t ih =>
    intro r
    cases h : e.1 line with
    | none => simp [List.foldl, List.filter_cons, apply_entry, h, ih]
    | some m => simp [List.foldl, List.filter_cons, apply_entry, h, ih]

/-- C1 counterexample: the line `"abort() Running foo..."` is matched by two
patterns of the recognizer table (the abort pattern and the item-start
pattern), and the dispatch loop runs BOTH handlers — `reboots` and
`items_run` are each incremented — because the loop body (u_monitor.py lines
331-334) has no `break`.  This refutes the claim that once one pattern
matches, none of the remaining patterns is tried. -/
theorem dispatch_no_break_cex :
    (matching_entries "abort() Running foo...").length = 2 ∧
    (process_line initial_results "abort() Running foo..." 0).reboots = 1 ∧
    (process_line initial_results "abort() Running foo..." 0).items_run = 1 := by
  refine ⟨?_, ?_, ?_⟩ <;> with_unfolding_all decide

/-- C1 (amended): for every input line the recognizer patterns are evaluated
in the fixed table order, and EVERY matching entry's handler is dispatched,
in table order — matching is not first-match-wins, so several handlers can
fire for a single line. -/
theorem dispatch_all_matching_entries (r : Results) (line : String) (now : Rat) :
    process_line r line now =
      (matching_entries line).foldl
        (fun s e => e.2 ((e.1 line).getD []) now s) r := by
  exact foldl_apply_entry_filter line now INTERESTING r

/-- C2: when the watching loop exits with `finished` set and, at the
post-loop check time `t`, neither the guard timer nor the inactivity timer
has expired and no exception occurred, `watch_items` returns
`items_failed + reboots`; that value is 0 exactly when there are zero failed
items and zero reboots.  (The first conjunct records that `finished = true`
by itself ends the loop.) -/
theorem completed_return_value (r : Results) (guard inact : Nat)
    (start last_act t : Rat) (hfin : r.finished = true)
    (hg : guard = 0 ∨ t - start < (guard : Rat))
    (hi : inact = 0 ∨ t - last_act < (inact : Rat)) :
    loop_continues true r.finished guard inact start last_act t = false ∧
    (watch_exit r guard inact start last_act t false).return_value =
      (r.items_failed : Int) + (r.reboots : Int) ∧
    ((watch_exit r guard inact start last_act t false).return_value = 0 ↔
      r.items_failed = 0 ∧ r.reboots = 0) := by
  have hg' : ¬ (guard ≠ 0 ∧ (guard : Rat) ≤ t - start) := by
    rcases hg with h | h
    · simp [h]
    · rintro ⟨_, hle⟩; exact absurd h (not_lt.mpr hle)
  have hi' : ¬ (inact ≠ 0 ∧ (inact : Rat) ≤ t - last_act) := by
    rcases hi with h | h
    · simp [h]
    · rintro ⟨_, hle⟩; exact absurd h (not_lt.mpr hle)
  refine ⟨by simp [loop_continues, hfin], ?_, ?_⟩
  · simp [watch_exit, hg', hi']
  · simp [watch_exit, hg', hi']
    omega

/-- C2 witness: a finished session with 2 failures and 1 reboot, unbounded
timers, returns 3. -/
theorem completed_return_value_witness :
    (watch_exit
      { initial_results with finished := true, items_failed := 2, reboots := 1 }
      0 0 0 0 5 false).return_value = 3 := by
  have h := completed_return_value
    { initial_results with finished := true, items_failed := 2, reboots := 1 }
    0 0 0 0 5 rfl (Or.inl rfl) (Or.inl rfl)
  rw [h.2.1]
  with_unfolding_all decide

/-- C3 counterexample: a session cancelled via `keep_going_flag`
(`keep_going = false`) while `finished` is still false and both timer budgets
are unbounded falls through to the `else` branch of `watch_items`
(u_monitor.py lines 342-349) and returns `items_failed + reboots` — here 0,
which is not a negative sentinel, refuting the claim. -/
theorem cancelled_nonnegative_cex :
    loop_continues false initial_results.finished 0 0 0 0 1 = false ∧
    (watch_exit initial_results 0 0 0 0 1 false).return_value = 0 ∧
    ¬ (watch_exit initial_results 0 0 0 0 1 false).return_value < 0 := by
  refine ⟨rfl, ?_, ?_⟩ <;> with_unfolding_all decide

/-- C3 (amended): when the watching loop exits because the cooperative
cancellation signal is observed (`keep_going = false`) with `finished` still
false and neither timer expired, `watch_items` returns
`items_failed + reboots` — a nonnegative value indistinguishable from the
COMPLETED return, never a negative sentinel. -/
theorem cancelled_return_value (r : Results) (guard inact : Nat)
    (start last_act t : Rat) (hfin : r.finished = false)
    (hg : guard = 0 ∨ t - start < (guard : Rat))
    (hi : inact = 0 ∨ t - last_act < (inact : Rat)) :
    loop_continues true r.finished guard inact start last_act t = true ∧
    loop_continues false r.finished guard inact start last_act t = false ∧
    (watch_exit r guard inact start last_act t false).return_value =
      (r.items_failed : Int) + (r.reboots : Int) ∧
    0 ≤ (watch_exit r guard inact start last_act t false).return_value := by
  have hg' : ¬ (guard ≠ 0 ∧ (guard : Rat) ≤ t - start) := by
    rcases hg with h | h
    · simp [h]
    · rintro ⟨_, hle⟩; exact absurd h (not_lt.mpr hle)
  have hi' : ¬ (inact ≠ 0 ∧ (inact : Rat) ≤ t - last_act) := by
    rcases hi with h | h
    · simp [h]
    · rintro ⟨_, hle⟩; exact absurd h (not_lt.mpr hle)
  refine ⟨?_, by simp [loop_continues], ?_, ?_⟩
  · rcases hg with h | h <;> rcases hi with h' | h' <;>
      simp [loop_continues, hfin, h, h']
  · simp [watch_exit, hg', hi']
  · simp [watch_exit, hg', hi']
    positivity

/-- C3 amended witness: cancelled run with 1 failure, 1 reboot returns 2. -/
theorem cancelled_return_value_witness :
    (watch_exit { initial_results with items_failed := 1, reboots := 1 }
      0 0 0 0 5 false).return_value = 2 := by
  have h := cancelled_return_value
    { initial_results with items_failed := 1, reboots := 1 }
    0 0 0 0 5 rfl (Or.inl rfl) (Or.inl rfl)
  rw [h.2.2.1]
  with_unfolding_all decide

/-- C7 counterexample: on the exception path of `watch_items` (a
`serial.SerialException` or `EOFError` escaping the `try` block, u_monitor.py
lines 350-353) the `except` clause only prints: `results["finished"]` is NOT
forced to true and the read thread is NOT joined before returning, refuting
the claim that this happens on every exit path. -/
theorem exception_skips_cleanup_cex :
    (watch_exit initial_results 0 0 0 0 0 true).finished_forced = false ∧
    (watch_exit initial_results 0 0 0 0 0 true).joined = false := ⟨rfl, rfl⟩

/-- C7 (amended): on every NORMAL exit of the watching loop — finish, guard
expiry, inactivity expiry, cancellation — `finished` is forced true and the
pump thread is joined before returning; on the exception (transport error)
path the supervisor returns the initial sentinel -1 without forcing
`finished` and without joining. -/
theorem watch_exit_cleanup (r : Results) (guard inact : Nat)
    (start last_act t : Rat) :
    ((watch_exit r guard inact start last_act t false).finished_forced = true ∧
     (watch_exit r guard inact start last_act t false).joined = true) ∧
    ((watch_exit r guard inact start last_act t true).finished_forced = false ∧
     (watch_exit r guard inact start last_act t true).joined = false ∧
     (watch_exit r guard inact start last_act t true).return_value = -1) := by
  exact ⟨⟨rfl, rfl⟩, ⟨rfl, rfl, rfl⟩⟩

/-- C4 counterexample: with the serial branch of `pwar_readline`, a no-data
poll in the middle of a line loses the characters read so far.  Stream
`['a', no-data, 'b', terminator]`: the first call consumes `'a'` and the
no-data poll and returns `none`; the next call sees only `'b'` + terminator
and returns `"b"` — the full line `"ab"` is never assembled, refuting the
claim that accumulated characters are preserved across calls. -/
theorem serial_readline_discards_cex :
    pwar_readline_serial '\n' [some 'a', none, some 'b', some '\n'] [] =
      (none, [some 'b', some '\n']) ∧
    pwar_readline_serial '\n' [some 'b', some '\n'] [] = (some ['b'], []) ∧
    (['b'] : List Char) ≠ ['a', 'b'] := by
  refine ⟨?_, ?_, ?_⟩ <;> with_unfolding_all decide

/-- C4 (amended): when the serial branch finds no data mid-line it returns
`none` for that call, and the characters accumulated so far are DISCARDED
(the local buffer restarts empty on the next call): after reading any run of
non-terminator bytes followed by a no-data poll, the call returns `none` and
only the unread remainder of the stream is left for later calls. -/
theorem serial_readline_no_data_discards (term : Char) (cs : List Char)
    (rest : List (Option Char)) (h : ∀ c ∈ cs, ¬ c = term) :
    pwar_readline_serial term (cs.map some ++ none :: rest) [] = (none, rest) := by
  suffices hgen : ∀ (cs' : List Char), (∀ c ∈ cs', ¬ c = term) →
      ∀ acc : List Char,
        pwar_readline_serial term (cs'.map some ++ none :: rest) acc =
          (none, rest) by
    exact hgen cs h []
  intro cs'
  induction cs' with
  | nil => intro _ acc; rfl
  | cons c t ih =>
    intro hc acc
    have hct : ¬ c = term := hc c (List.mem_cons_self c t)
    simp only [List.map_cons, List.cons_append, pwar_readline_serial, if_neg hct]
    exact ih (fun x hx => hc x (List.mem_cons_of_mem c hx)) (acc ++ [c])

/-- C4 amended witness: two bytes then a no-data poll yield `none` with an
empty remainder. -/
theorem serial_readline_no_data_discards_witness :
    pwar_readline_serial '\n' [some 'x', some 'y', none] [] = (none, []) := by
  have h := serial_readline_no_data_discards '\n' ['x', 'y'] []
    (by intro c hc; fin_cases hc <;> decide)
  simpa using h

/-- C5: classifying the summary line `"22 Tests 1 Failures 0 Ignored"` from
ANY prior state overwrites `items_run`, `items_failed`, `items_ignored` with
the three captured integers 22, 1, 0 (not accumulated) and sets `finished`;
the COMPLETED return value of `watch_items` is then `1 +` the reboot count. -/
theorem finish_line_overwrites (r : Results) (now : Rat) :
    process_line r "22 Tests 1 Failures 0 Ignored" now =
      { r with
        items_run := 22,
        items_failed := 1,
        items_ignored := 0,
        finished := true } ∧
    (watch_exit (process_line r "22 Tests 1 Failures 0 Ignored" now)
        0 0 0 0 now false).return_value = 1 + (r.reboots : Int) := by
  have h1 : re_match_abort "22 Tests 1 Failures 0 Ignored" = none := by
    with_unfolding_all decide
  have h2 : re_match_guru "22 Tests 1 Failures 0 Ignored" = none := by
    with_unfolding_all decide
  have h3 : re_match_hardfault "22 Tests 1 Failures 0 Ignored" = none := by
    with_unfolding_all decide
  have h4 : re_match_zephyr "22 Tests 1 Failures 0 Ignored" = none := by
    with_unfolding_all decide
  have h5 : re_match_run "22 Tests 1 Failures 0 Ignored" = none := by
    with_unfolding_all decide
  have h6 : re_match_pass "22 Tests 1 Failures 0 Ignored" = none := by
    with_unfolding_all decide
  have h7 : re_match_fail "22 Tests 1 Failures 0 Ignored" = none := by
    with_unfolding_all decide
  have h8 : re_match_finish "22 Tests 1 Failures 0 Ignored" =
      some ["22", "1", "0"] := by
    with_unfolding_all decide
  have hv1 : pyInt "22" = 22 := by with_unfolding_all decide
  have hv2 : pyInt "1" = 1 := by with_unfolding_all decide
  have hv3 : pyInt "0" = 0 := by with_unfolding_all decide
  have hp : process_line r "22 Tests 1 Failures 0 Ignored" now =
      { r with
        items_run := 22,
        items_failed := 1,
        items_ignored := 0,
        finished := true } := by
    simp [process_line, INTERESTING, apply_entry, h1, h2, h3, h4, h5, h6, h7,
      h8, finish_callback, hv1, hv2, hv3]
  refine ⟨hp, ?_⟩
  rw [hp]
  simp [watch_exit]

/-- C6: a PASS (resp. FAIL) outcome is appended at the end of `outcomes` —
strict arrival order — with duration `ceil(now - last_item_start_time)`; and
end to end, the lines `"Running testFoo..."` at time 0 then
`"/a/b.c:10:testFoo:PASS"` at time 3 produce exactly the single outcome
`("testFoo", 3, "PASS")`. -/
theorem outcome_order_and_duration :
    (∀ (m : List String) (now : Rat) (r : Results),
      pass_callback m now r =
        { r with outcomes := r.outcomes ++
            [(m.getD 0 "", mathCeil (now - r.last_start_time), "PASS")] } ∧
      fail_callback m now r =
        { r with
          items_failed := r.items_failed + 1,
          outcomes := r.outcomes ++
            [(m.getD 0 "", mathCeil (now - r.last_start_time), "FAIL")] }) ∧
    (watch_lines initial_results
        [("Running testFoo...", 0), ("/a/b.c:10:testFoo:PASS", 3)]).outcomes =
      [("testFoo", 3, "PASS")] := by
  constructor
  · intro m now r
    exact ⟨rfl, rfl⟩
  · with_unfolding_all decide

/-- C8 counterexample: the run-finished handler copies the captured integers
without any cross-check, so the summary line `"5 Tests 7 Failures 0 Ignored"`
puts the state into `items_run = 5`, `items_failed = 7`, violating the
claimed invariant `items_failed ≤ items_run` in a reachable post-finish
state. -/
theorem finish_invariant_cex :
    ¬ ((process_line initial_results "5 Tests 7 Failures 0 Ignored" 0).items_failed ≤
       (process_line initial_results "5 Tests 7 Failures 0 Ignored" 0).items_run) := by
  with_unfolding_all decide

/-- C8 (amended): after a run-finished line is classified, `items_failed` and
`items_run` are exactly the captured failure and test counts, so the
invariant `items_failed ≤ items_run` holds provided the device-reported
failure count does not exceed its test count; and since `finished` is now
set, the watching loop processes no further lines, so the state — and the
invariant — persists for every possible subsequent input. -/
theorem finish_invariant_amended (r : Results) (line : String) (now : Rat)
    (g1 g2 g3 : String) (h : re_match_finish line = some [g1, g2, g3])
    (hle : pyInt g2 ≤ pyInt g1) :
    (process_line r line now).items_failed ≤ (process_line r line now).items_run ∧
    (process_line r line now).finished = true ∧
    ∀ rest, watch_lines (process_line r line now) rest = process_line r line now := by
  have hfields : (process_line r line now).items_failed = pyInt g2 ∧
      (process_line r line now).items_run = pyInt g1 ∧
      (process_line r line now).finished = true := by
    simp only [process_line, INTERESTING, List.foldl, apply_entry, h]
    simp [finish_callback]
  refine ⟨?_, hfields.2.2, ?_⟩
  · rw [hfields.1, hfields.2.1]; exact hle
  · intro rest
    cases rest with
    | nil => rfl
    | cons a t =>
      obtain ⟨l, ti⟩ := a
      simp [watch_lines, hfields.2.2]

/-- C8 amended witness: for `"22 Tests 1 Failures 0 Ignored"` the captured
counts satisfy 1 ≤ 22 and the invariant holds in the resulting state. -/
theorem finish_invariant_amended_witness :
    (process_line initial_results "22 Tests 1 Failures 0 Ignored" 0).items_failed ≤
      (process_line initial_results "22 Tests 1 Failures 0 Ignored" 0).items_run := by
  exact (finish_invariant_amended initial_results "22 Tests 1 Failures 0 Ignored"
    0 "22" "1" "0" (by with_unfolding_all decide) (by with_unfolding_all decide)).1

/-- C9 counterexample: the report block of `main` runs only under
`if test_report_handle and instance:`; a session with a report sink supplied
but a falsy `instance` (exactly what the standalone `__main__` path passes)
writes NO report document even though an outcome was recorded, refuting the
claim that supplying a sink suffices for one document to be written. -/
theorem report_requires_instance_cex :
    write_report true false
      { initial_results with outcomes := [("testFoo", 3, "PASS")] } = none := by
  rfl

/-- C9 (amended): a report document is written only when BOTH a report sink
and a truthy instance are supplied; in that case exactly one document is
produced, whose envelope carries `items_run`/`items_failed` and whose case
list is the image, in recorded order, of the `outcomes` list — every
recorded PASS/FAIL outcome appears exactly once, in the same order. -/
theorem report_round_trip (r : Results) (rep : TestReport)
    (h : write_report true true r = some rep) :
    rep.tests = r.items_run ∧ rep.failures = r.items_failed ∧
    rep.cases = r.outcomes.map (fun o =>
      { classname := "ubxlib_tests", name := o.1, time := o.2.1,
        status := o.2.2 }) ∧
    write_report true false r = none ∧ write_report false true r = none := by
  have h' : some
      ({ tests := r.items_run, failures := r.items_failed,
         cases := r.outcomes.map (fun o =>
           { classname := "ubxlib_tests", name := o.1, time := o.2.1,
             status := o.2.2 }) } : TestReport) = some rep := h
  have hrep := Option.some.inj h'
  rw [← hrep]
  exact ⟨rfl, rfl, rfl, rfl, rfl⟩

/-- C9 amended witness: a session that recorded one PASS outcome, with both
sink and instance supplied, yields a report whose single case carries that
outcome. -/
theorem report_round_trip_witness :
    ({ tests := 1, failures := 0,
       cases := [{ classname := "ubxlib_tests", name := "testFoo", time := 3,
                   status := "PASS" }] } : TestReport).cases =
      ({ initial_results with
         items_run := 1,
         outcomes := [("testFoo", 3, "PASS")] } : Results).outcomes.map
        (fun o => { classname := "ubxlib_tests", name := o.1, time := o.2.1,
                    status := o.2.2 }) := by
  exact (report_round_trip
    { initial_results with items_run := 1, outcomes := [("testFoo", 3, "PASS")] }
    { tests := 1, failures := 0,
      cases := [{ classname := "ubxlib_tests", name := "testFoo", time := 3,
                  status := "PASS" }] } rfl).2.2.1

/-- Frame lemma for the dispatch loop: on a line that does not match the
run-finished pattern, `items_run` grows by exactly 1 when the item-start
pattern matches and by 0 otherwise (no other handler touches it), and
`finished` is unchanged (only the run-finished handler sets it). -/
theorem process_line_run_effect (r : Results) (line : String) (now : Rat)
    (hfin : re_match_finish line = none) :
    (process_line r line now).items_run =
      r.items_run + (if (re_match_run line).isSome then 1 else 0) ∧
    (process_line r line now).finished = r.finished := by
  simp only [process_line, INTERESTING, List.foldl, apply_entry]
  cases h1 : re_match_abort line <;> cases h2 : re_match_guru line <;>
    cases h3 : re_match_hardfault line <;> cases h4 : re_match_zephyr line <;>
    cases h5 : re_match_run line <;> cases h6 : re_match_pass line <;>
    cases h7 : re_match_fail line <;>
    simp [h1, h2, h3, h4, h5, h6, h7, hfin, reboot_callback, run_callback,
      pass_callback, fail_callback, record_outcome]

/-- Under a stream with no run-finished line, starting from an unfinished
state, the watching loop classifies every line and `items_run` counts
exactly the lines matching the item-start pattern. -/
theorem watch_lines_items_run (steps : List (String × Rat)) : ∀ r : Results,
    r.finished = false → (∀ s ∈ steps, re_match_finish s.1 = none) →
    (watch_lines r steps).items_run =
      r.items_run +
        (steps.filter (fun s => (re_match_run s.1).isSome)).length := by
  induction steps with
  | nil =>
    intro r _ _
    simp [watch_lines]
  | cons a t ih =>
    intro r hr hfin
    obtain ⟨line, now⟩ := a
    have ha := process_line_run_effect r line now
      (hfin (line, now) (List.mem_cons_self _ t))
    have hrest : ∀ s ∈ t, re_match_finish s.1 = none :=
      fun s hs => hfin s (List.mem_cons_of_mem _ hs)
    have hfin' : (process_line r line now).finished = false := by
      rw [ha.2, hr]
    simp only [watch_lines, hr, Bool.false_eq_true, if_false]
    rw [ih _ hfin' hrest, ha.1, List.filter_cons]
    cases hrun : (re_match_run line).isSome <;> simp [hrun] <;> omega

/-- C10: the item-start handler increments `items_run` by exactly 1 while
stamping `last_item_start_time` with the current time; consequently, on a
session whose stream contains no run-finished line, `items_run` equals the
number of lines matching the item-start pattern classified so far, not the
number of completed outcomes. -/
theorem run_marker_counts :
    (∀ (m : List String) (now : Rat) (r : Results),
      run_callback m now r =
        { r with last_start_time := now, items_run := r.items_run + 1 }) ∧
    ∀ steps : List (String × Rat),
      (∀ s ∈ steps, re_match_finish s.1 = none) →
      (watch_lines initial_results steps).items_run =
        (steps.filter (fun s => (re_match_run s.1).isSome)).length := by
  constructor
  · intro m now r
    rfl
  · intro steps h
    have hw := watch_lines_items_run steps initial_results rfl h
    simpa [initial_results] using hw

/-- C10 witness: a single item-start line (and no summary line) leaves
`items_run = 1` even though no outcome was completed. -/
theorem run_marker_counts_witness :
    (watch_lines initial_results [("Running testFoo...", (0 : Rat))]).items_run
      = 1 := by
  have h := run_marker_counts.2 [("Running testFoo...", (0 : Rat))]
    (by
      intro s hs
      rw [List.mem_singleton] at hs
      subst hs
      with_unfolding_all decide)
  rw [h]
  with_unfolding_all decide
